import Mathlib

/-!
Shallow embedding of `src/flappybird.py` (a Flappy Bird clone written with
pygame).  Python integers are modelled by `Int`/`Nat`, Python floats by `Real`
(the program's float arithmetic — additions, subtractions, `math.cos` — is
exact real arithmetic on the values that occur here), and code that raises an
exception is modelled by `Except PyErr`.  Each definition carries a reference
to the lines of the source it translates.
-/

namespace FlappyBird

/-- Python exceptions raised by the embedded code. -/
inductive PyErr
  | nameError
  | typeError
deriving DecidableEq, Repr

/-! ### Module-level constants (flappybird.py lines 14-17) -/

def FPS : ℕ := 60

/-- Pixels per frame that each pipe moves left (line 15). -/
def FRAME_ANIMATION_WIDTH : ℤ := 3

def WIN_WIDTH : ℤ := 284 * 2

def WIN_HEIGHT : ℤ := 512

/-! ### Bird (lines 20-107) -/

/-- The bird's state: `x`, `y` and `steps_to_jump` as set by `Bird.__init__`
(lines 64-67).  The two image fields are rendering-only and are omitted. -/
structure Bird where
  x : ℤ
  y : ℝ
  steps_to_jump : ℤ

namespace Bird

def WIDTH : ℤ := 32
def HEIGHT : ℤ := 32
def FRAME_DROP_HEIGHT : ℤ := 3
def FRAME_JUMP_HEIGHT : ℤ := 5
def JUMP_STEPS : ℤ := 20

end Bird

/-- The per-frame jump displacement computed at lines 82-85:
`FRAME_JUMP_HEIGHT * (1 - cos(frac_jump_done * pi))` where
`frac_jump_done = (JUMP_STEPS - steps_to_jump) / JUMP_STEPS`. -/
noncomputable def jumpDelta (steps : ℤ) : ℝ :=
  (Bird.FRAME_JUMP_HEIGHT : ℝ) *
    (1 - Real.cos (((Bird.JUMP_STEPS : ℝ) - (steps : ℝ)) / (Bird.JUMP_STEPS : ℝ) * Real.pi))

/-- Line 81 evaluates the bare name `steps_to_jump`.  No local variable and no
module-level global of that name exists (the attribute is `self.steps_to_jump`),
so the name lookup raises `NameError` before anything else happens. -/
def lookupBareStepsToJump : Except PyErr ℤ := .error .nameError

/-- `Bird.update` (lines 69-88), translated literally: the guard of the `if`
reads the unbound bare name `steps_to_jump` (line 81), so every call raises
`NameError`; the two branches below it are translated from lines 82-88 and are
never reached. -/
noncomputable def Bird.update (b : Bird) : Except PyErr Bird :=
  lookupBareStepsToJump.bind fun steps =>
    if 0 < steps then
      .ok { b with
              y := b.y - jumpDelta b.steps_to_jump
              steps_to_jump := b.steps_to_jump - 1 }
    else
      .ok { b with y := b.y + (Bird.FRAME_DROP_HEIGHT : ℝ) }

/-- Modelled from the spec: the per-tick transition that `Bird.update`'s own
docstring (lines 70-80) and spec section 4.1 document — identical to
`Bird.update` except that the guard reads the attribute `self.steps_to_jump`
instead of the unbound bare name.  Used to state what the code was documented
to do at the points where the literal code raises `NameError`. -/
noncomputable def Bird.updateIntended (b : Bird) : Bird :=
  if 0 < b.steps_to_jump then
    { b with
        y := b.y - jumpDelta b.steps_to_jump
        steps_to_jump := b.steps_to_jump - 1 }
  else
    { b with y := b.y + (Bird.FRAME_DROP_HEIGHT : ℝ) }

/-- `n` successive calls of `Bird.update`, stopping at the first exception. -/
noncomputable def Bird.updateNTimes : ℕ → Bird → Except PyErr Bird
  | 0, b => .ok b
  | n + 1, b => (Bird.update b).bind (Bird.updateNTimes n)

/-- Python's `int()` applied to a float: truncation toward zero.  Used by
pygame's `Rect` constructor on the bird's float `y`. -/
noncomputable def pyint (r : ℝ) : ℤ := if 0 ≤ r then ⌊r⌋ else ⌈r⌉

/-- A pygame `Rect`: integer position and size. -/
structure Rect where
  x : ℤ
  y : ℤ
  w : ℤ
  h : ℤ
deriving DecidableEq, Repr

/-- pygame's rectangle-overlap test (`Rect.colliderect`, used by
`Rect.collidelist`): the two rectangles share interior area. -/
def Rect.collide (a b : Rect) : Prop :=
  a.x < b.x + b.w ∧ a.y < b.y + b.h ∧ b.x < a.x + a.w ∧ b.y < a.y + a.h

/-- `Bird.rect` (lines 104-107): `Rect(self.x, self.y, Bird.WIDTH, Bird.HEIGHT)`. -/
noncomputable def Bird.rect (b : Bird) : Rect :=
  ⟨b.x, pyint b.y, Bird.WIDTH, Bird.HEIGHT⟩

/-! ### PipePair (lines 110-207) -/

/-- A pipe pair's state as set up by `PipePair.__init__`; the pre-rendered
image is rendering-only and is omitted. -/
structure PipePair where
  x : ℤ
  score_counted : Bool
  top_pieces : ℤ
  bottom_pieces : ℤ
deriving DecidableEq, Repr

namespace PipePair

def WIDTH : ℤ := 80
def PIECE_HEIGHT : ℤ := 32
def ADD_INTERVAL : ℕ := 3000

/-- `total_pipe_body_pieces` (lines 159-164):
`int((WIN_HEIGHT - 3*Bird.HEIGHT - 3*PIECE_HEIGHT) / PIECE_HEIGHT)`; the
division is exact, so float division followed by `int` agrees with integer
division. -/
def total_pipe_body_pieces : ℤ :=
  (WIN_HEIGHT - 3 * Bird.HEIGHT - 3 * PIECE_HEIGHT) / PIECE_HEIGHT

/-- `PipePair.__init__` (lines 142-185) with the `randint(1,
total_pipe_body_pieces)` draw passed in explicitly as `bottomDraw`:
`x = WIN_WIDTH`, `score_counted = False`,
`bottom_pieces = bottomDraw`, `top_pieces = total - bottomDraw`, and then both
counts are incremented by one for the added end pieces (lines 183-185). -/
def make (bottomDraw : ℤ) : PipePair :=
  { x := WIN_WIDTH
    score_counted := false
    bottom_pieces := bottomDraw + 1
    top_pieces := (total_pipe_body_pieces - bottomDraw) + 1 }

/-- `PipePair.top_height_px` (lines 187-190). -/
def top_height_px (p : PipePair) : ℤ := p.top_pieces * PIECE_HEIGHT

/-- `PipePair.bottom_height_px` (lines 192-195). -/
def bottom_height_px (p : PipePair) : ℤ := p.bottom_pieces * PIECE_HEIGHT

/-- The top pipe's rectangle `Rect(self.x, 0, WIDTH, top_height_px)` (line 204). -/
def topRect (p : PipePair) : Rect := ⟨p.x, 0, WIDTH, p.top_height_px⟩

/-- The bottom pipe's rectangle (lines 205-206). -/
def bottomRect (p : PipePair) : Rect :=
  ⟨p.x, WIN_HEIGHT - p.bottom_height_px, WIDTH, p.bottom_height_px⟩

/-- `PipePair.collides_with` (lines 197-207): `rect.collidelist((top_rect,
bottom_rect)) > -1`, i.e. the query rectangle overlaps the top or the bottom
pipe rectangle. -/
def collides_with (p : PipePair) (r : Rect) : Prop :=
  Rect.collide r p.topRect ∨ Rect.collide r p.bottomRect

end PipePair

/-- The vertical gap left between the two pipes of a pair:
`WIN_HEIGHT - top_height_px - bottom_height_px` (the quantity the spec's
invariant speaks about). -/
def gapPx (p : PipePair) : ℤ := WIN_HEIGHT - p.top_height_px - p.bottom_height_px

/-! ### Session state and the main loop (lines 271-353) -/

/-- The mutable state of one run of `main`'s loop: the pipe deque
(oldest first), the bird, `score`, `done`, `paused` and `frame_clock`. -/
structure Session where
  pipes : List PipePair
  bird : Bird
  score : ℕ
  done : Prop
  paused : Bool
  frame_clock : ℕ

/-- One event taken from the pygame queue, as dispatched by lines 305-316:
`quit` covers `QUIT` and the escape key-up, `pauseToggle` covers key-ups of
`PAUSE`/`p`, `jump` covers `MOUSEBUTTONUP` and key-ups of
`UP`/`RETURN`/`SPACE`, and `addPipe` is `PipePair.ADD_EVENT` (carrying the
`randint` draw used by the `PipePair` it constructs). -/
inductive Ev
  | quit
  | pauseToggle
  | jump
  | addPipe (bottomDraw : ℤ)
deriving DecidableEq, Repr

/-- The event loop of lines 305-316: `quit` sets `done` and breaks out (later
events of the same tick are not processed), `pauseToggle` flips `paused`,
`jump` sets the bird's `steps_to_jump` to `Bird.JUMP_STEPS`, `addPipe`
appends a freshly constructed `PipePair`. -/
def processEvents : Session → List Ev → Session
  | s, [] => s
  | s, Ev.quit :: _ => { s with done := True }
  | s, Ev.pauseToggle :: rest => processEvents { s with paused := !s.paused } rest
  | s, Ev.jump :: rest =>
      processEvents { s with bird := { s.bird with steps_to_jump := Bird.JUMP_STEPS } } rest
  | s, Ev.addPipe b :: rest =>
      processEvents { s with pipes := s.pipes ++ [PipePair.make b] } rest

/-- `msec_to_frames(PipePair.ADD_INTERVAL)` (lines 261-268): `60 * 3000 / 1000
= 180` frames; the float arithmetic is exact. -/
def ADD_INTERVAL_FRAMES : ℕ := FPS * PipePair.ADD_INTERVAL / 1000

/-- Lines 302-303: when the game is not paused and `frame_clock` is a multiple
of the add interval, a `PipePair.ADD_EVENT` is posted to the back of this
tick's event queue. -/
def spawnQueue (s : Session) (evs : List Ev) (draw : ℤ) : List Ev :=
  evs ++ (if s.paused = false ∧ s.frame_clock % ADD_INTERVAL_FRAMES = 0
          then [Ev.addPipe draw] else [])

/-- The collision / boundary check of lines 321-324: `done` is set when some
pipe collides with `bird.rect`, or `0 >= bird.y`, or
`bird.y >= WIN_HEIGHT - Bird.HEIGHT`. -/
def pipesCollide (pipes : List PipePair) (r : Rect) : Prop :=
  ∃ p ∈ pipes, p.collides_with r

/-- The termination-check step (lines 321-324) applied to a session. -/
noncomputable def collisionCheck (s : Session) : Session :=
  { s with
      done := s.done ∨ pipesCollide s.pipes s.bird.rect ∨
        0 ≥ s.bird.y ∨ s.bird.y ≥ (WIN_HEIGHT : ℝ) - (Bird.HEIGHT : ℝ) }

/-- Lines 329-330: pop pipes from the front of the deque while the front
pipe's `x` is at most `-PipePair.WIDTH`. -/
def retirePipes : List PipePair → List PipePair
  | [] => []
  | p :: ps => if p.x ≤ -PipePair.WIDTH then retirePipes ps else p :: ps

/-- Line 333: every remaining pipe moves left by `FRAME_ANIMATION_WIDTH`. -/
def movePipes (ps : List PipePair) : List PipePair :=
  ps.map fun p => { p with x := p.x - FRAME_ANIMATION_WIDTH }

/-- The scoring loop of lines 341-344: for each pipe whose right edge
(`p.x + PipePair.WIDTH`) is strictly left of the bird's `x` and whose
`score_counted` flag is still false, increment the score and set the flag. -/
def scoreStep (birdx : ℤ) : List PipePair → ℕ → List PipePair × ℕ
  | [], score => ([], score)
  | p :: ps, score =>
      if p.x + PipePair.WIDTH < birdx ∧ p.score_counted = false then
        let rest := scoreStep birdx ps (score + 1)
        ({ p with score_counted := true } :: rest.1, rest.2)
      else
        let rest := scoreStep birdx ps score
        (p :: rest.1, rest.2)

/-- One iteration of the `while not done` loop (lines 297-351), taking the
externally arriving events `evs` of this tick and the `randint` draw used if
a pipe is spawned.  The order follows the source: post the add event
(302-303), process the queue (305-316), `continue` if paused (318-319),
collision check (321-324), retire (329-330) and move (332-334) pipes,
`bird.update()` (336) — which raises `NameError`, aborting the tick — then
scoring (341-344) and `frame_clock += 1` (line 351). -/
noncomputable def tick (s : Session) (evs : List Ev) (draw : ℤ) : Except PyErr Session :=
  let s1 := processEvents s (spawnQueue s evs draw)
  if s1.paused then .ok s1
  else
    let s2 := collisionCheck s1
    let pipes3 := movePipes (retirePipes s2.pipes)
    (Bird.update s2.bird).bind fun b =>
      let scored := scoreStep b.x pipes3 s2.score
      .ok { s2 with
              pipes := scored.1
              bird := b
              score := scored.2
              frame_clock := s2.frame_clock + 1 }

/-! ### The bird construction call site (lines 287-290) -/

/-- Python call semantics for applying an `int` as if it were a function:
`TypeError: 'int' object is not callable`. -/
def pyCallInt {α β : Type} (_f : ℤ) (_arg : α) : Except PyErr β := .error .typeError

/-- The call `Bird(50, int(WIN_HEIGHT/2 - Bird.HEIGHT/2), 2
(images['bird-wingup'], images['bird-wingdown']))` (lines 289-290).  A comma
is missing after the `2`, so the third argument expression applies the integer
literal `2` to the image tuple, raising `TypeError` while the arguments are
being evaluated; `Bird.__init__` is never entered. -/
noncomputable def birdInitCallSite : Except PyErr Bird :=
  (pyCallInt 2 ((), ())).bind fun steps : ℤ =>
    .ok { x := 50, y := ((WIN_HEIGHT / 2 - Bird.HEIGHT / 2 : ℤ) : ℝ), steps_to_jump := steps }

/-- The bird the call site was evidently meant to construct:
`Bird(50, int(WIN_HEIGHT/2 - Bird.HEIGHT/2), 2, images)` with the missing
comma restored (`int(512/2 - 32/2) = 240`). -/
noncomputable def intendedInitBird : Bird :=
  { x := 50, y := ((WIN_HEIGHT / 2 - Bird.HEIGHT / 2 : ℤ) : ℝ), steps_to_jump := 2 }

/-! ### Concrete sample objects used by witnesses -/

/-- A pipe whose `x` is just right of the retirement threshold. -/
def strayPipe : PipePair := { x := -77, score_counted := false, top_pieces := 7, bottom_pieces := 5 }

/-- A small pipe deque ordered oldest-first (ascending `x`). -/
def demoPipes : List PipePair :=
  [ { x := -81, score_counted := false, top_pieces := 7, bottom_pieces := 5 }
  , { x := -77, score_counted := false, top_pieces := 6, bottom_pieces := 6 }
  , { x := 100, score_counted := false, top_pieces := 7, bottom_pieces := 5 } ]

/-- A pipe already passed by the bird (right edge `-31 + 80 = 49 < 50`),
not yet counted. -/
def passedPipe : PipePair := { x := -31, score_counted := false, top_pieces := 7, bottom_pieces := 5 }

/-- A pipe already passed by the bird and already counted. -/
def countedPipe : PipePair := { x := -31, score_counted := true, top_pieces := 7, bottom_pieces := 5 }

/-- A pipe still ahead of the bird. -/
def farPipe : PipePair := { x := 100, score_counted := false, top_pieces := 7, bottom_pieces := 5 }

/-- A running session whose bird sits at height `y`, with no pipes. -/
noncomputable def sessionAt (y : ℝ) : Session :=
  { pipes := [], bird := { x := 50, y := y, steps_to_jump := 2 },
    score := 0, done := False, paused := false, frame_clock := 0 }

/-- A paused session with one pipe on screen. -/
noncomputable def pausedSession : Session :=
  { pipes := [farPipe], bird := { x := 50, y := 240, steps_to_jump := 0 },
    score := 3, done := False, paused := true, frame_clock := 7 }

end FlappyBird

namespace FlappyBird

/-! ### Claim theorems -/

/-- C1: the claim states that one call of `update()` performs the single-tick
transition (cosine-eased ascent while `steps_to_jump > 0`, else a 3-pixel
drop, as the docstring documents).  The code instead reads the unbound bare
name `steps_to_jump` at line 81, so every call of `Bird.update` raises
`NameError` and no transition ever happens: the code contradicts its own
docstring. -/
theorem C1_update_always_raises_nameError (b : Bird) :
    Bird.update b = .error .nameError := rfl

/-- C9: the claim states that the session constructs one bird with `x = 50`,
`y = 240` and `steps_to_jump = 2`.  The call site (lines 289-290) is missing a
comma, so evaluating its third argument applies the integer literal `2` to the
image tuple and raises `TypeError`; no bird is constructed.  The bird the call
was evidently meant to construct does have `x = 50`, `y = 240`,
`steps_to_jump = 2`. -/
theorem C9_bird_init_raises_typeError :
    birdInitCallSite = .error .typeError
    ∧ intendedInitBird.x = 50
    ∧ intendedInitBird.y = 240
    ∧ intendedInitBird.steps_to_jump = 2 := by
  refine ⟨rfl, rfl, ?_, rfl⟩
  show ((WIN_HEIGHT / 2 - Bird.HEIGHT / 2 : ℤ) : ℝ) = 240
  norm_num [WIN_HEIGHT, Bird.HEIGHT]

/-- The pipe body-piece budget evaluates to 10. -/
theorem total_pipe_body_pieces_eq :
    PipePair.total_pipe_body_pieces = 10 := by decide

/-- C3 counterexample: for the draw 4 (the spec's own worked example), the gap
is `512 - 224 - 160 = 128` pixels, not `3 * BIRD_HEIGHT = 96`. -/
theorem C3_counterexample :
    gapPx (PipePair.make 4) ≠ 3 * Bird.HEIGHT := by decide

/-- C3 (amended): for every constructed `PipePair` the vertical gap between
the two pipes equals exactly `3 * BIRD_HEIGHT + PIECE_HEIGHT = 4 * BIRD_HEIGHT
= 128` pixels: the budget reserves three piece-heights but only the two end
pieces are added back, so one spare piece-height joins the three bird-heights
of gap. -/
theorem C3_gap_is_128 (bottomDraw : ℤ) :
    gapPx (PipePair.make bottomDraw) = 3 * Bird.HEIGHT + PipePair.PIECE_HEIGHT
    ∧ gapPx (PipePair.make bottomDraw) = 128 := by
  simp only [gapPx, PipePair.make, PipePair.top_height_px, PipePair.bottom_height_px,
    total_pipe_body_pieces_eq, WIN_HEIGHT, PipePair.PIECE_HEIGHT, Bird.HEIGHT]
  omega

/-- C4: for every possible `randint` draw `b ∈ [1, totalPieces]` with
`totalPieces = 10`, the adjusted counts satisfy
`top_pieces + bottom_pieces - 2 = totalPieces`, both counts are at least 1,
and the gap is at least `3 * BIRD_HEIGHT`. -/
theorem C4_construction_invariants (b : ℤ) (h1 : 1 ≤ b)
    (h2 : b ≤ PipePair.total_pipe_body_pieces) :
    PipePair.total_pipe_body_pieces = 10
    ∧ (PipePair.make b).top_pieces + (PipePair.make b).bottom_pieces - 2 =
        PipePair.total_pipe_body_pieces
    ∧ 1 ≤ (PipePair.make b).top_pieces
    ∧ 1 ≤ (PipePair.make b).bottom_pieces
    ∧ 3 * Bird.HEIGHT ≤ gapPx (PipePair.make b) := by
  rw [total_pipe_body_pieces_eq] at h2
  refine ⟨total_pipe_body_pieces_eq, ?_⟩
  simp only [gapPx, PipePair.make, PipePair.top_height_px, PipePair.bottom_height_px,
    total_pipe_body_pieces_eq, WIN_HEIGHT, PipePair.PIECE_HEIGHT, Bird.HEIGHT]
  omega

/-- C4 witness at the draw 4. -/
theorem C4_witness :
    (1 ≤ (4 : ℤ) ∧ (4 : ℤ) ≤ PipePair.total_pipe_body_pieces)
    ∧ (PipePair.make 4).top_pieces + (PipePair.make 4).bottom_pieces - 2 =
        PipePair.total_pipe_body_pieces
    ∧ 3 * Bird.HEIGHT ≤ gapPx (PipePair.make 4) := by
  have h := C4_construction_invariants 4 (by decide) (by decide)
  exact ⟨⟨by decide, by decide⟩, h.2.1, h.2.2.2.2⟩

/-- C8 counterexample: the loop retires pipes before moving them, so a pipe at
`x = -77` survives retirement, is moved to `x = -80 = -WIDTH`, and is still in
the deque at the end of the tick — contradicting the claim that after the
movement step no active obstacle satisfies `x ≤ -WIDTH`. -/
theorem C8_counterexample :
    movePipes (retirePipes [strayPipe]) = [{ strayPipe with x := -80 }]
    ∧ ∃ q ∈ movePipes (retirePipes [strayPipe]), q.x ≤ -PipePair.WIDTH := by decide

/-- Every pipe surviving retirement sits strictly right of `-WIDTH`, provided
the deque is ordered oldest-first (ascending `x`), which is how `main`
maintains it. -/
theorem retirePipes_front (ps : List PipePair)
    (hs : ps.Pairwise fun a b => a.x ≤ b.x) :
    ∀ q ∈ retirePipes ps, -PipePair.WIDTH < q.x := by
  induction ps with
  | nil => intro q hq; cases hq
  | cons p ps ih =>
      rcases List.pairwise_cons.mp hs with ⟨hp, hps⟩
      intro q hq
      by_cases h : p.x ≤ -PipePair.WIDTH
      · rw [retirePipes, if_pos h] at hq
        exact ih hps q hq
      · rw [retirePipes, if_neg h] at hq
        rcases List.mem_cons.mp hq with rfl | hq
        · omega
        · have := hp q hq
          omega

/-- C8 (amended): each active tick first retires, from the front of the deque,
every pipe with `x ≤ -WIDTH`, and then moves each surviving pipe left by
exactly `FRAME_ANIMATION_WIDTH = 3`; so no pipe entering the movement step has
`x ≤ -WIDTH`, and at the end of the tick a pipe's `x` can be as low as
`-WIDTH - 2` (such a pipe is removed at the start of the next active tick). -/
theorem C8_retire_then_move (ps : List PipePair)
    (hs : ps.Pairwise fun a b => a.x ≤ b.x) :
    movePipes (retirePipes ps) =
      (retirePipes ps).map (fun p => { p with x := p.x - FRAME_ANIMATION_WIDTH })
    ∧ (∀ q ∈ retirePipes ps, -PipePair.WIDTH < q.x)
    ∧ (∀ q ∈ movePipes (retirePipes ps),
        -PipePair.WIDTH - FRAME_ANIMATION_WIDTH < q.x) := by
  refine ⟨rfl, retirePipes_front ps hs, ?_⟩
  intro q hq
  rcases List.mem_map.mp hq with ⟨p, hp, rfl⟩
  have := retirePipes_front ps hs p hp
  simp only [FRAME_ANIMATION_WIDTH] at *
  omega

/-- C8 witness on a concrete sorted deque. -/
theorem C8_witness :
    (∀ q ∈ retirePipes demoPipes, -PipePair.WIDTH < q.x)
    ∧ movePipes (retirePipes demoPipes) =
        (retirePipes demoPipes).map (fun p => { p with x := p.x - FRAME_ANIMATION_WIDTH }) := by
  have h := C8_retire_then_move demoPipes (by decide)
  exact ⟨h.2.1, h.1⟩

/-- C5: the per-tick termination check sets `done` exactly when some active
pipe collides with the bird's rectangle, or `bird.y ≤ 0`, or
`bird.y ≥ WIN_HEIGHT - BIRD_HEIGHT = 480`; in particular, with no pipe
collision, a bird at `y = 0` or `y = 480` triggers it and a bird strictly
inside `(0, 480)` does not. -/
theorem C5_termination_check (s : Session) :
    ((collisionCheck s).done ↔
      s.done ∨ pipesCollide s.pipes s.bird.rect ∨ s.bird.y ≤ 0 ∨ (480 : ℝ) ≤ s.bird.y)
    ∧ (s.pipes = [] → ¬ s.done →
        ((s.bird.y = 0 ∨ s.bird.y = 480) → (collisionCheck s).done)
        ∧ (0 < s.bird.y → s.bird.y < 480 → ¬ (collisionCheck s).done)) := by
  have hwh : (WIN_HEIGHT : ℝ) - (Bird.HEIGHT : ℝ) = 480 := by
    norm_num [WIN_HEIGHT, Bird.HEIGHT]
  constructor
  · show (s.done ∨ _ ∨ 0 ≥ s.bird.y ∨ s.bird.y ≥ (WIN_HEIGHT : ℝ) - (Bird.HEIGHT : ℝ)) ↔ _
    rw [hwh]
  · intro hpipes hdone
    constructor
    · intro hy
      show s.done ∨ _ ∨ 0 ≥ s.bird.y ∨ s.bird.y ≥ (WIN_HEIGHT : ℝ) - (Bird.HEIGHT : ℝ)
      rcases hy with hy | hy
      · exact Or.inr (Or.inr (Or.inl (le_of_eq hy)))
      · exact Or.inr (Or.inr (Or.inr (by rw [hy, hwh])))
    · intro h1 h2 hd
      rcases hd with hd | hd | hd | hd
      · exact hdone hd
      · rcases hd with ⟨p, hp, _⟩
        rw [hpipes] at hp
        cases hp
      · exact absurd h1 (not_lt.mpr hd)
      · rw [hwh] at hd
        exact absurd h2 (not_lt.mpr hd)

/-- C5 witness: a pipe-free bird at `y = 0` triggers the check and a pipe-free
bird at `y = 240` does not. -/
theorem C5_witness :
    (collisionCheck (sessionAt 0)).done ∧ ¬ (collisionCheck (sessionAt 240)).done := by
  have h0 := (C5_termination_check (sessionAt 0)).2 rfl id
  have h240 := (C5_termination_check (sessionAt 240)).2 rfl id
  refine ⟨h0.1 (Or.inl rfl), h240.2 ?_ ?_⟩
  · show (0 : ℝ) < 240
    norm_num
  · show (240 : ℝ) < 480
    norm_num

/-- The score returned by the scoring loop: the incoming score plus the number
of pipes already passed (right edge strictly left of the bird) and not yet
counted. -/
theorem scoreStep_snd (birdx : ℤ) (ps : List PipePair) :
    ∀ score : ℕ, (scoreStep birdx ps score).2 = score +
      ps.countP (fun p => decide (p.x + PipePair.WIDTH < birdx ∧ p.score_counted = false)) := by
  induction ps with
  | nil => intro score; simp [scoreStep]
  | cons p ps ih =>
      intro score
      by_cases h : p.x + PipePair.WIDTH < birdx ∧ p.score_counted = false
      · rw [scoreStep, if_pos h]
        rw [List.countP_cons_of_pos _ _ (by simpa using h)]
        rw [ih (score + 1)]
        omega
      · rw [scoreStep, if_neg h]
        rw [List.countP_cons_of_neg _ _ (by simpa using h)]
        exact ih score

/-- The pipe list returned by the scoring loop: each pipe is marked counted
exactly when it was passed and not yet counted, independently of the others. -/
theorem scoreStep_fst (birdx : ℤ) (ps : List PipePair) :
    ∀ score : ℕ, (scoreStep birdx ps score).1 = ps.map fun p =>
      if p.x + PipePair.WIDTH < birdx ∧ p.score_counted = false
      then { p with score_counted := true } else p := by
  induction ps with
  | nil => intro score; simp [scoreStep]
  | cons p ps ih =>
      intro score
      by_cases h : p.x + PipePair.WIDTH < birdx ∧ p.score_counted = false
      · rw [scoreStep, if_pos h]
        dsimp only
        rw [List.map_cons, if_pos h, ih (score + 1)]
      · rw [scoreStep, if_neg h]
        dsimp only
        rw [List.map_cons, if_neg h, ih score]

/-- C6: the scoring loop adds exactly 1 to the score for each pipe whose right
edge `x + WIDTH` is strictly left of the bird's `x` and whose `score_counted`
flag is false (so the score never decreases); it marks exactly those pipes
counted; a pipe whose flag is already true is left unchanged and is excluded
from the count, and moving pipes never changes a `score_counted` flag — hence
a counted pipe never contributes again on any later tick. -/
theorem C6_scoring (birdx : ℤ) (ps : List PipePair) (score : ℕ) :
    ((scoreStep birdx ps score).2 = score +
      ps.countP (fun p => decide (p.x + PipePair.WIDTH < birdx ∧ p.score_counted = false)))
    ∧ score ≤ (scoreStep birdx ps score).2
    ∧ ((scoreStep birdx ps score).1 = ps.map fun p =>
        if p.x + PipePair.WIDTH < birdx ∧ p.score_counted = false
        then { p with score_counted := true } else p)
    ∧ (∀ p : PipePair, p.score_counted = true →
        (if p.x + PipePair.WIDTH < birdx ∧ p.score_counted = false
         then { p with score_counted := true } else p) = p
        ∧ decide (p.x + PipePair.WIDTH < birdx ∧ p.score_counted = false) = false)
    ∧ (∀ qs : List PipePair,
        (movePipes qs).map PipePair.score_counted = qs.map PipePair.score_counted) := by
  refine ⟨scoreStep_snd birdx ps score, ?_, scoreStep_fst birdx ps score, ?_, ?_⟩
  · rw [scoreStep_snd birdx ps score]
    exact Nat.le_add_right _ _
  · intro p hp
    constructor
    · rw [if_neg]
      rintro ⟨_, hfalse⟩
      rw [hp] at hfalse
      cases hfalse
    · simp [hp]
  · intro qs
    simp [movePipes, List.map_map]

/-- C6 witness: from score 3, a passed uncounted pipe adds 1, a passed
already-counted pipe adds nothing, and a pipe still ahead adds nothing. -/
theorem C6_witness :
    (scoreStep 50 [passedPipe, countedPipe, farPipe] 3).2 = 4
    ∧ (scoreStep 50 [passedPipe, countedPipe, farPipe] 3).1 =
        [{ passedPipe with score_counted := true }, countedPipe, farPipe] := by
  have h := C6_scoring 50 [passedPipe, countedPipe, farPipe] 3
  exact ⟨h.1.trans (by decide), h.2.2.1.trans (by decide)⟩

/-- `processEvents` leaves the pipe deque, the bird's `y`, the score, the
frame counter and the paused flag unchanged when the event list contains no
pause toggle and no add-pipe event. -/
theorem processEvents_preserve :
    ∀ (evs : List Ev) (s : Session), Ev.pauseToggle ∉ evs → (∀ b, Ev.addPipe b ∉ evs) →
      (processEvents s evs).pipes = s.pipes
      ∧ (processEvents s evs).bird.y = s.bird.y
      ∧ (processEvents s evs).score = s.score
      ∧ (processEvents s evs).frame_clock = s.frame_clock
      ∧ (processEvents s evs).paused = s.paused
  | [], _, _, _ => ⟨rfl, rfl, rfl, rfl, rfl⟩
  | Ev.quit :: _, _, _, _ => ⟨rfl, rfl, rfl, rfl, rfl⟩
  | Ev.pauseToggle :: _, _, hnp, _ => absurd (List.mem_cons_self _ _) hnp
  | Ev.jump :: rest, s, hnp, hna => by
      have h := processEvents_preserve rest
        { s with bird := { s.bird with steps_to_jump := Bird.JUMP_STEPS } }
        (fun hh => hnp (List.mem_cons_of_mem _ hh))
        (fun b hh => hna b (List.mem_cons_of_mem _ hh))
      simpa [processEvents] using h
  | Ev.addPipe b :: _, _, _, hna => absurd (List.mem_cons_self _ _) (hna b)

/-- C7: a tick that starts paused and receives no resume toggle changes
nothing except through input processing: the tick returns normally with the
pipe deque (positions, spawns and retirements), the bird's `y`, the score and
the frame counter all unchanged, and the session still paused. -/
theorem C7_paused_tick (s : Session) (evs : List Ev) (draw : ℤ)
    (hp : s.paused = true)
    (hnp : Ev.pauseToggle ∉ evs)
    (hna : ∀ b, Ev.addPipe b ∉ evs) :
    tick s evs draw = .ok (processEvents s evs)
    ∧ (processEvents s evs).pipes = s.pipes
    ∧ (processEvents s evs).bird.y = s.bird.y
    ∧ (processEvents s evs).score = s.score
    ∧ (processEvents s evs).frame_clock = s.frame_clock
    ∧ (processEvents s evs).paused = true := by
  have h := processEvents_preserve evs s hnp hna
  have hq : spawnQueue s evs draw = evs := by
    simp [spawnQueue, hp]
  have hpp : (processEvents s evs).paused = true := h.2.2.2.2.trans hp
  refine ⟨?_, h.1, h.2.1, h.2.2.1, h.2.2.2.1, hpp⟩
  rw [tick, hq]
  simp only [hpp, if_true]

/-- C7 witness: a paused tick receiving a jump and a quit event. -/
theorem C7_witness :
    tick pausedSession [Ev.jump, Ev.quit] 4 =
      .ok (processEvents pausedSession [Ev.jump, Ev.quit])
    ∧ (processEvents pausedSession [Ev.jump, Ev.quit]).pipes = pausedSession.pipes
    ∧ (processEvents pausedSession [Ev.jump, Ev.quit]).score = pausedSession.score
    ∧ (processEvents pausedSession [Ev.jump, Ev.quit]).frame_clock =
        pausedSession.frame_clock := by
  have h := C7_paused_tick pausedSession [Ev.jump, Ev.quit] 4 rfl (by decide)
    (by intro b; simp)
  exact ⟨h.1, h.2.1, h.2.2.2.1, h.2.2.2.2.1⟩

/-- C10: a jump event arriving during a paused tick is still processed — the
bird's `steps_to_jump` is set to `JUMP_STEPS = 20` while its `y`, the pipes,
the score and the frame counter stay unchanged and the session stays paused;
on the next active tick the docstring-intended update starts consuming the
jump (it decrements a positive `steps_to_jump`), while the literal
`Bird.update` raises `NameError` on any bird (the defect of C1). -/
theorem C10_jump_during_pause (s : Session) (draw : ℤ) (hp : s.paused = true) :
    (∃ s1, tick s [Ev.jump] draw = .ok s1
      ∧ s1.bird.steps_to_jump = Bird.JUMP_STEPS
      ∧ s1.bird.y = s.bird.y
      ∧ s1.pipes = s.pipes
      ∧ s1.score = s.score
      ∧ s1.frame_clock = s.frame_clock
      ∧ s1.paused = true)
    ∧ (∀ b : Bird, 0 < b.steps_to_jump →
        (Bird.updateIntended b).steps_to_jump = b.steps_to_jump - 1)
    ∧ (∀ b : Bird, Bird.update b = .error .nameError) := by
  refine ⟨⟨{ s with bird := { s.bird with steps_to_jump := Bird.JUMP_STEPS } },
      ?_, rfl, rfl, rfl, rfl, rfl, hp⟩, ?_, fun _ => rfl⟩
  · have hq : spawnQueue s [Ev.jump] draw = [Ev.jump] := by
      simp [spawnQueue, hp]
    simp only [tick, hq, processEvents, hp, if_true]
  · intro b hb
    rw [Bird.updateIntended, if_pos hb]

/-- C10 witness on a concrete paused session. -/
theorem C10_witness :
    ∃ s1, tick pausedSession [Ev.jump] 3 = .ok s1
      ∧ s1.bird.steps_to_jump = Bird.JUMP_STEPS
      ∧ s1.score = pausedSession.score
      ∧ s1.paused = true := by
  have h := C10_jump_during_pause pausedSession 3 rfl
  rcases h.1 with ⟨s1, h1, h2, _, _, h5, _, h7⟩
  exact ⟨s1, h1, h2, h5, h7⟩

/-- The cosine values stepping a half-turn in twentieths sum to 1: all terms
cancel in reflected pairs except `cos 0 = 1` and the middle term
`cos (pi/2) = 0`. -/
theorem sum_cos_twenty :
    ∑ k in Finset.range 20, Real.cos ((k : ℝ) / 20 * Real.pi) = 1 := by
  set f : ℕ → ℝ := fun k => Real.cos ((k : ℝ) / 20 * Real.pi) with hf
  have hrefl : ∑ j in Finset.range 20, f (20 - 1 - j) = ∑ j in Finset.range 20, f j :=
    Finset.sum_range_reflect f 20
  have htel : ∑ j in Finset.range 20, (f j - f (j + 1)) = f 0 - f 20 :=
    Finset.sum_range_sub' f 20
  have hcongr : ∀ j ∈ Finset.range 20, f j + f (20 - 1 - j) = f j - f (j + 1) := by
    intro j hj
    have hj' : j < 20 := Finset.mem_range.mp hj
    have hle : j ≤ 19 := by omega
    have e1 : (20 - 1 - j : ℕ) = 19 - j := by omega
    have h1 : f (20 - 1 - j) = -f (j + 1) := by
      rw [hf]
      dsimp only
      rw [e1, Nat.cast_sub hle]
      have harg : (((19 : ℕ) : ℝ) - (j : ℝ)) / 20 * Real.pi
          = Real.pi - (((j + 1 : ℕ) : ℝ) / 20 * Real.pi) := by
        push_cast
        ring
      rw [harg, Real.cos_pi_sub]
    rw [h1]
    ring
  have hsum : (∑ j in Finset.range 20, f j) + (∑ j in Finset.range 20, f j)
      = f 0 - f 20 := by
    calc (∑ j in Finset.range 20, f j) + (∑ j in Finset.range 20, f j)
        = (∑ j in Finset.range 20, f j) + (∑ j in Finset.range 20, f (20 - 1 - j)) := by
          rw [hrefl]
      _ = ∑ j in Finset.range 20, (f j + f (20 - 1 - j)) := by
          rw [Finset.sum_add_distrib]
      _ = ∑ j in Finset.range 20, (f j - f (j + 1)) := Finset.sum_congr rfl hcongr
      _ = f 0 - f 20 := htel
  have hf0 : f 0 = 1 := by
    rw [hf]
    norm_num
  have hf20 : f 20 = -1 := by
    rw [hf]
    dsimp only
    have harg : ((20 : ℕ) : ℝ) / 20 * Real.pi = Real.pi := by
      norm_num
    rw [harg, Real.cos_pi]
  rw [hf0, hf20] at hsum
  linarith

/-- The per-frame displacement of the docstring-intended update, at the frame
where `steps_to_jump = 20 - n`. -/
theorem jumpDelta_eq (n : ℕ) :
    jumpDelta (20 - (n : ℤ)) = 5 * (1 - Real.cos ((n : ℝ) / 20 * Real.pi)) := by
  simp only [jumpDelta, Bird.JUMP_STEPS, Bird.FRAME_JUMP_HEIGHT]
  push_cast
  have harg : ((20 : ℝ) - (20 - (n : ℝ))) / 20 * Real.pi = (n : ℝ) / 20 * Real.pi := by
    ring
  rw [harg]

/-- Closed form for `n ≤ 20` iterations of the docstring-intended update
starting from a fresh jump (`steps_to_jump = 20`). -/
theorem updateIntended_iter (y0 : ℝ) (n : ℕ) :
    n ≤ 20 →
    Bird.updateIntended^[n] { x := 50, y := y0, steps_to_jump := 20 } =
      { x := 50,
        y := y0 - ∑ k in Finset.range n, (5 : ℝ) * (1 - Real.cos ((k : ℝ) / 20 * Real.pi)),
        steps_to_jump := 20 - (n : ℤ) } := by
  induction n with
  | zero =>
      intro _
      simp
  | succ n ih =>
      intro hn
      have hn' : n ≤ 20 := by omega
      rw [Function.iterate_succ_apply', ih hn']
      have hpos : (0 : ℤ) < 20 - (n : ℤ) := by omega
      simp only [Bird.updateIntended]
      rw [if_pos hpos]
      simp only [Bird.mk.injEq]
      refine ⟨trivial, ?_, ?_⟩
      · rw [Finset.sum_range_succ, jumpDelta_eq n]
        ring
      · push_cast
        ring

/-- C2: the claim promises a 100-pixel monotone rise over the 20 ticks of one
full jump.  The literal code cannot execute even one tick — `Bird.update`
raises `NameError` — and the docstring-intended update rises by exactly 95
pixels, not 100, because the first frame's displacement
`5 * (1 - cos 0)` is zero; the rise is monotone (y never increases during the
20 ticks). -/
theorem C2_full_jump (y0 : ℝ) :
    Bird.updateNTimes 20 { x := 50, y := y0, steps_to_jump := 20 } = .error .nameError
    ∧ (Bird.updateIntended^[20] { x := 50, y := y0, steps_to_jump := 20 }).y = y0 - 95
    ∧ ∀ k : ℕ, k < 20 →
        (Bird.updateIntended^[k + 1] { x := 50, y := y0, steps_to_jump := 20 }).y ≤
          (Bird.updateIntended^[k] { x := 50, y := y0, steps_to_jump := 20 }).y := by
  refine ⟨rfl, ?_, ?_⟩
  · rw [updateIntended_iter y0 20 le_rfl]
    have hsum : ∑ k in Finset.range 20, (5 : ℝ) * (1 - Real.cos ((k : ℝ) / 20 * Real.pi))
        = 95 := by
      have hdist : ∑ k in Finset.range 20, (5 : ℝ) * (1 - Real.cos ((k : ℝ) / 20 * Real.pi))
          = ∑ k in Finset.range 20, ((5 : ℝ) - 5 * Real.cos ((k : ℝ) / 20 * Real.pi)) := by
        refine Finset.sum_congr rfl fun k _ => ?_
        ring
      rw [hdist, Finset.sum_sub_distrib, Finset.sum_const, ← Finset.mul_sum, sum_cos_twenty]
      norm_num
    rw [hsum]
  · intro k hk
    rw [updateIntended_iter y0 (k + 1) (by omega), updateIntended_iter y0 k (by omega)]
    dsimp only
    rw [Finset.sum_range_succ]
    have hcos : Real.cos ((k : ℝ) / 20 * Real.pi) ≤ 1 := Real.cos_le_one _
    have hterm : (0 : ℝ) ≤ 5 * (1 - Real.cos ((k : ℝ) / 20 * Real.pi)) := by linarith
    linarith

/-- C2 witness: from `y = 240` the coded update errors at once, the intended
update ends the jump at `y = 145`, and the first tick does not raise `y`. -/
theorem C2_witness :
    Bird.updateNTimes 20 { x := 50, y := (240 : ℝ), steps_to_jump := 20 } = .error .nameError
    ∧ (Bird.updateIntended^[20] { x := 50, y := (240 : ℝ), steps_to_jump := 20 }).y = 240 - 95
    ∧ ((0 : ℕ) < 20
        ∧ (Bird.updateIntended^[0 + 1] { x := 50, y := (240 : ℝ), steps_to_jump := 20 }).y ≤
            (Bird.updateIntended^[0] { x := 50, y := (240 : ℝ), steps_to_jump := 20 }).y) := by
  have h := C2_full_jump 240
  exact ⟨h.1, h.2.1, by norm_num, h.2.2 0 (by norm_num)⟩

end FlappyBird
